import Mathlib

/-!
Verification of the pocket-http-db router (`router/router.go`) against its
natural-language specification.

The Go code is shallowly embedded: the repository's record types
(`repository.Application`, `repository.LoadBalancer`, `repository.PayPlan`,
their partial-update counterparts) become Lean structures; the in-memory
cache becomes an association list keyed by the entity's string identifier;
`time.Time` values are modelled as `Nat` with `0` standing for Go's
zero-value timestamp; Go `nil` pointers become `Option.none`.  Each HTTP
handler body (after JSON decoding, which is out of scope) becomes a pure
function from the cache, the decoded input and the outcome of the Store
write to an explicit outcome value.  A Go nil-pointer dereference (a
panic) is modelled as a distinguished `panicked` outcome.
-/

namespace PocketHTTPDB

/-- Pay plan record (`repository.PayPlan`): plan type and daily relay limit. -/
structure PayPlan where
  planType : String
  dailyLimit : Nat
deriving DecidableEq

/-- Gateway AAT sub-object of an application (`repository.GatewayAAT`). -/
structure GatewayAAT where
  address : String
  applicationPublicKey : String
  applicationSignature : String
  clientPublicKey : String
  privateKey : String
  version : String
deriving DecidableEq

/-- Gateway settings sub-object (`repository.GatewaySettings`). -/
structure GatewaySettings where
  secretKey : String
  secretKeyRequired : Bool
  whitelistBlockchains : List String
  whitelistContracts : String
  whitelistMethods : String
  whitelistOrigins : List String
  whitelistUserAgents : List String
deriving DecidableEq

/-- Notification settings sub-object (`repository.NotificationSettings`). -/
structure NotificationSettings where
  signedUp : Bool
  quarter : Bool
  half : Bool
  threeQuarters : Bool
  full : Bool
deriving DecidableEq

/-- Stickiness options sub-object of a load balancer (`repository.StickyOptions`). -/
structure StickyOptions where
  duration : String
  stickyOrigins : List String
  stickyMax : Nat
  stickiness : Bool
deriving DecidableEq

/-- Derived application limits (`repository.AppLimits`). -/
structure AppLimits where
  planType : String
  dailyLimit : Nat
  appID : String
  appName : String
  appUserID : String
  publicKey : String
  notificationSettings : Option NotificationSettings
  firstDateSurpassed : Option Nat
deriving DecidableEq

/-- The zero value of `AppLimits`, as produced by a Go struct literal that
sets none of the fields. -/
def AppLimits.zero : AppLimits :=
  { planType := "", dailyLimit := 0, appID := "", appName := "", appUserID := ""
    publicKey := "", notificationSettings := none, firstDateSurpassed := none }

/-- Application record (`repository.Application`).  `firstDateSurpassed`
models `time.Time`, with `0` the zero-value timestamp. -/
structure Application where
  id : String
  userID : String
  name : String
  contactEmail : String
  description : String
  owner : String
  url : String
  status : String
  payPlanType : String
  firstDateSurpassed : Nat
  dummy : Bool
  gatewayAAT : GatewayAAT
  gatewaySettings : GatewaySettings
  notificationSettings : NotificationSettings
  limits : AppLimits
deriving DecidableEq

/-- The terminal status constant `repository.AwaitingGracePeriod`. -/
def AwaitingGracePeriod : String := "AWAITING_GRACE_PERIOD"

/-- Partial-update request for an application (`repository.UpdateApplication`).
Zero values (empty string, `0` timestamp, `none` pointer) mean "leave
unchanged". -/
structure UpdateApplication where
  name : String
  status : String
  payPlanType : String
  firstDateSurpassed : Nat
  gatewaySettings : Option GatewaySettings
  notificationSettings : Option NotificationSettings
  remove : Bool
deriving DecidableEq

/-- Load balancer record (`repository.LoadBalancer`).  The materialized
`applications` list holds the results of cache lookups, which in Go are
possibly-nil pointers, hence `Option Application`. -/
structure LoadBalancer where
  id : String
  userID : String
  name : String
  requestTimeout : Nat
  gigastake : Bool
  gigastakeRedirect : Bool
  applicationIDs : List String
  applications : List (Option Application)
  stickyOptions : StickyOptions
deriving DecidableEq

/-- Partial-update request for a load balancer (`repository.UpdateLoadBalancer`). -/
structure UpdateLoadBalancer where
  name : String
  stickyOptions : Option StickyOptions
  remove : Bool
deriving DecidableEq

/-- Bulk first-date-surpassed update input (`repository.UpdateFirstDateSurpassed`). -/
structure UpdateFirstDateSurpassed where
  applicationIDs : List String
  firstDateSurpassed : Nat
deriving DecidableEq

/-- The in-memory mirror: Go maps keyed by entity identifier, modelled as
association lists with unique keys. -/
structure Cache where
  applications : List (String × Application)
  loadBalancers : List (String × LoadBalancer)
  payPlans : List (String × PayPlan)
deriving DecidableEq

/-- Lookup in an association list by exact key equality, modelling a Go map
read that yields a possibly-nil pointer. -/
def lookupAssoc {β : Type} (l : List (String × β)) (id : String) : Option β :=
  match l with
  | [] => none
  | p :: t => if p.1 = id then some p.2 else lookupAssoc t id

/-- Replace the value stored under a key, modelling Go's in-place mutation
through the pointer returned by the map lookup (a missing key leaves the
list unchanged). -/
def setAssoc {β : Type} (l : List (String × β)) (id : String) (b : β) : List (String × β) :=
  l.map (fun p => if p.1 = id then (id, b) else p)

/-- Modelled from the spec: the Cache component (package `cache`, not under
`src/`) exposes `GetApplication`, returning the entity or an explicit
not-found signal (a `nil` pointer in Go, `none` here). -/
def Cache.getApplication (c : Cache) (id : String) : Option Application :=
  lookupAssoc c.applications id

/-- Modelled from the spec: `GetLoadBalancer` of the Cache component. -/
def Cache.getLoadBalancer (c : Cache) (id : String) : Option LoadBalancer :=
  lookupAssoc c.loadBalancers id

/-- Modelled from the spec: `GetPayPlan` of the Cache component, a lookup in
the pay-plan index keyed by plan type. -/
def Cache.getPayPlan (c : Cache) (t : String) : Option PayPlan :=
  lookupAssoc c.payPlans t

/-- Modelled from the spec: the secondary index of applications grouped by
owning user; yields the empty list when the user owns nothing. -/
def Cache.getApplicationsByUserID (c : Cache) (uid : String) : List Application :=
  (c.applications.map Prod.snd).filter (fun a => a.userID = uid)

/-- Modelled from the spec: the secondary index of load balancers grouped by
owning user; yields the empty list when the user owns nothing. -/
def Cache.getLoadBalancersByUserID (c : Cache) (uid : String) : List LoadBalancer :=
  (c.loadBalancers.map Prod.snd).filter (fun l => l.userID = uid)

/-- In-place update of a cached application (mutation through the pointer). -/
def Cache.setApplication (c : Cache) (id : String) (a : Application) : Cache :=
  { c with applications := setAssoc c.applications id a }

/-- In-place update of a cached load balancer. -/
def Cache.setLoadBalancer (c : Cache) (id : String) (lb : LoadBalancer) : Cache :=
  { c with loadBalancers := setAssoc c.loadBalancers id lb }

/-- The `AppLimits` struct literal built in `CreateApplication` and
`UpdateApplication`: only `PlanType` and `DailyLimit` are set, every other
field is left at its zero value. -/
def limitsFromPlan (p : PayPlan) : AppLimits :=
  { AppLimits.zero with planType := p.planType, dailyLimit := p.dailyLimit }

/-- Outcome of a single store write, abstracting the `Writer` interface. -/
inductive StoreResult where
  | ok
  | fail
deriving DecidableEq

/-- Tail of the application merge (`router.go` lines 254-262): timestamp and
nested-object fields, applied after the name/status/pay-plan fields. -/
def applyAppUpdateTail (app : Application) (u : UpdateApplication) : Application :=
  let a := if u.firstDateSurpassed ≠ 0 then { app with firstDateSurpassed := u.firstDateSurpassed } else app
  let a := match u.gatewaySettings with
    | some g => { a with gatewaySettings := g }
    | none => a
  match u.notificationSettings with
    | some n => { a with notificationSettings := n }
    | none => a

/-- Head of the application merge (`router.go` lines 241-246): the string
fields mutated in place before the pay-plan lookup. -/
def applyAppUpdateHead (app : Application) (u : UpdateApplication) : Application :=
  let a := if u.name ≠ "" then { app with name := u.name } else app
  if u.status ≠ "" then { a with status := u.status } else a

/-- The zero-value-sentinel merge of `UpdateApplication` (`router.go` lines
241-262), applied to the cached entity.  `none` models the Go nil-pointer
dereference (panic) that occurs when `payPlanType` is non-empty but absent
from the cache's pay-plan index. -/
def applyAppUpdate (c : Cache) (app : Application) (u : UpdateApplication) : Option Application :=
  let a := applyAppUpdateHead app u
  if u.payPlanType ≠ "" then
    match c.getPayPlan u.payPlanType with
    | none => none
    | some p => some (applyAppUpdateTail { a with limits := limitsFromPlan p } u)
  else
    some (applyAppUpdateTail a u)

/-- The zero-value-sentinel merge of `UpdateLoadBalancer` (`router.go` lines
493-498). -/
def applyLBUpdate (lb : LoadBalancer) (u : UpdateLoadBalancer) : LoadBalancer :=
  let l := if u.name ≠ "" then { lb with name := u.name } else lb
  match u.stickyOptions with
  | some s => { l with stickyOptions := s }
  | none => l

/-- Outcome of the `UpdateApplication` handler: each constructor carries the
cache state after the handler returns (for `panicked`, the state at the
moment of the nil dereference, name/status mutations having already been
applied in place). -/
inductive UpdateAppOutcome where
  | notFound (c : Cache)
  | storeError (c : Cache)
  | panicked (c : Cache)
  | ok (c : Cache) (app : Application)
deriving DecidableEq

/-- Cache state carried by an `UpdateApplication` handler outcome. -/
def UpdateAppOutcome.cache : UpdateAppOutcome → Cache
  | .notFound c => c
  | .storeError c => c
  | .panicked c => c
  | .ok c _ => c

/-- The `UpdateApplication` handler (`router.go` lines 202-266): look the
application up in the cache, branch on the remove flag, call the store
writer, and on success apply either the soft-removal transition or the
zero-value-sentinel merge to the cached entity in place. -/
def Router.UpdateApplication (c : Cache) (id : String) (u : UpdateApplication)
    (w : StoreResult) : UpdateAppOutcome :=
  match c.getApplication id with
  | none => .notFound c
  | some app =>
    match w with
    | .fail => .storeError c
    | .ok =>
      if u.remove then
        let a := { app with status := AwaitingGracePeriod }
        .ok (c.setApplication id a) a
      else
        match applyAppUpdate c app u with
        | none => .panicked (c.setApplication id (applyAppUpdateHead app u))
        | some a => .ok (c.setApplication id a) a

/-- Outcome of the `UpdateLoadBalancer` handler. -/
inductive UpdateLBOutcome where
  | notFound (c : Cache)
  | storeError (c : Cache)
  | ok (c : Cache) (lb : LoadBalancer)
deriving DecidableEq

/-- Cache state carried by an `UpdateLoadBalancer` handler outcome. -/
def UpdateLBOutcome.cache : UpdateLBOutcome → Cache
  | .notFound c => c
  | .storeError c => c
  | .ok c _ => c

/-- The `UpdateLoadBalancer` handler (`router.go` lines 454-502). -/
def Router.UpdateLoadBalancer (c : Cache) (id : String) (u : UpdateLoadBalancer)
    (w : StoreResult) : UpdateLBOutcome :=
  match c.getLoadBalancer id with
  | none => .notFound c
  | some lb =>
    match w with
    | .fail => .storeError c
    | .ok =>
      if u.remove then
        let l := { lb with userID := "" }
        .ok (c.setLoadBalancer id l) l
      else
        let l := applyLBUpdate lb u
        .ok (c.setLoadBalancer id l) l

/-- Post-write step of `CreateApplication` (`router.go` lines 189-197):
assemble `limits` from the cache's pay-plan index when the store-returned
record carries a pay-plan type, then clear `payPlanType`.  `none` models the
nil dereference when the plan is absent from the cache. -/
def Router.CreateApplication (c : Cache) (fullApp : Application) : Option Application :=
  if fullApp.payPlanType ≠ "" then
    match c.getPayPlan fullApp.payPlanType with
    | none => none
    | some p => some { fullApp with limits := limitsFromPlan p, payPlanType := "" }
  else
    some fullApp

/-- Post-write step of `CreateLoadBalancer` (`router.go` lines 445-450):
resolve each member application ID against the cache's application index,
appending the lookup results to the materialized list, then clear the raw
ID list. -/
def Router.CreateLoadBalancer (c : Cache) (fullLB : LoadBalancer) : LoadBalancer :=
  { fullLB with
      applications := fullLB.applications ++ fullLB.applicationIDs.map c.getApplication
      applicationIDs := [] }

/-- Outcome of a list-by-user handler: either the not-found error response
or the list of owned entities. -/
inductive ByUserOutcome (α : Type) where
  | notFound
  | ok (items : List α)
deriving DecidableEq

/-- The `GetApplicationByUserID` handler (`router.go` lines 313-325):
responds with the not-found error when the secondary-index lookup is empty. -/
def Router.GetApplicationByUserID (c : Cache) (uid : String) : ByUserOutcome Application :=
  let apps := c.getApplicationsByUserID uid
  if apps = [] then .notFound else .ok apps

/-- The `GetLoadBalancerByUserID` handler (`router.go` lines 327-339). -/
def Router.GetLoadBalancerByUserID (c : Cache) (uid : String) : ByUserOutcome LoadBalancer :=
  let lbs := c.getLoadBalancersByUserID uid
  if lbs = [] then .notFound else .ok lbs

/-- ASCII upper-casing of a string, character by character, modelling
`strings.ToUpper` on the ASCII plan-type identifiers the code uses. -/
def toUpperStr (s : String) : String :=
  String.mk (s.data.map Char.toUpper)

/-- The `GetPayPlan` handler (`router.go` lines 508-520): upper-case the
path parameter, then look it up in the pay-plan index; `none` is rendered
as the not-found response. -/
def Router.GetPayPlan (c : Cache) (t : String) : Option PayPlan :=
  c.getPayPlan (toUpperStr t)

/-- Outcome of the `UpdateFirstDateSurpassed` handler. -/
inductive UFDSOutcome where
  | badRequest (c : Cache)
  | notFound (c : Cache) (missing : String)
  | storeError (c : Cache)
  | ok (c : Cache) (apps : List Application)
deriving DecidableEq

/-- Cache state carried by an `UpdateFirstDateSurpassed` handler outcome. -/
def UFDSOutcome.cache : UFDSOutcome → Cache
  | .badRequest c => c
  | .notFound c _ => c
  | .storeError c => c
  | .ok c _ => c

/-- First listed application ID absent from the cache, if any — the ID at
which the collection loop of `UpdateFirstDateSurpassed` returns 404. -/
def firstMissingApp (c : Cache) : List String → Option String
  | [] => none
  | id :: rest =>
    match c.getApplication id with
    | none => some id
    | some _ => firstMissingApp c rest

/-- One in-place assignment `app.FirstDateSurpassed = input` through a
cached pointer. -/
def setFDSStep (d : Nat) (c : Cache) (id : String) : Cache :=
  match c.getApplication id with
  | none => c
  | some a => c.setApplication id { a with firstDateSurpassed := d }

/-- The assignment loop of `UpdateFirstDateSurpassed` over all listed IDs. -/
def setFDS (d : Nat) (ids : List String) (c : Cache) : Cache :=
  ids.foldl (setFDSStep d) c

/-- Whether control flow in `UpdateFirstDateSurpassed` reaches the store
write: it does exactly when the ID list is non-empty and every listed ID is
present in the cache. -/
def ufdsStoreWritten (c : Cache) (u : UpdateFirstDateSurpassed) : Bool :=
  !u.applicationIDs.isEmpty && (firstMissingApp c u.applicationIDs).isNone

/-- The `UpdateFirstDateSurpassed` handler (`router.go` lines 268-311):
reject an empty ID list, 404 on the first unknown ID, propagate a store
error, and otherwise assign the input date to every listed application. -/
def Router.UpdateFirstDateSurpassed (c : Cache) (u : UpdateFirstDateSurpassed)
    (w : StoreResult) : UFDSOutcome :=
  if u.applicationIDs = [] then .badRequest c
  else
    match firstMissingApp c u.applicationIDs with
    | some id => .notFound c id
    | none =>
      match w with
      | .fail => .storeError c
      | .ok =>
        let c2 := setFDS u.firstDateSurpassed u.applicationIDs c
        .ok c2 (u.applicationIDs.filterMap c2.getApplication)

/-- The all-zero-value update request. -/
def zeroUpdateApplication : UpdateApplication :=
  { name := "", status := "", payPlanType := "", firstDateSurpassed := 0
    gatewaySettings := none, notificationSettings := none, remove := false }

/-- The all-zero-value load balancer update request. -/
def zeroUpdateLoadBalancer : UpdateLoadBalancer :=
  { name := "", stickyOptions := none, remove := false }

/-- Sample pay plan from the seed data (`FREETIER_V0`, 250000). -/
def planFree : PayPlan := { planType := "FREETIER_V0", dailyLimit := 250000 }

/-- Sample pay plan from the seed data (`TEST_PLAN_10K`, 10000). -/
def planTest10K : PayPlan := { planType := "TEST_PLAN_10K", dailyLimit := 10000 }

/-- Sample gateway AAT. -/
def aatEx : GatewayAAT :=
  { address := "addr1", applicationPublicKey := "pub1", applicationSignature := "sig1"
    clientPublicKey := "cpub1", privateKey := "", version := "0.0.1" }

/-- Sample (zero-valued) gateway settings. -/
def gsEx : GatewaySettings :=
  { secretKey := "", secretKeyRequired := false, whitelistBlockchains := []
    whitelistContracts := "", whitelistMethods := "", whitelistOrigins := []
    whitelistUserAgents := [] }

/-- Sample (zero-valued) notification settings. -/
def nsEx : NotificationSettings :=
  { signedUp := false, quarter := false, half := false, threeQuarters := false, full := false }

/-- Sample (zero-valued) stickiness options. -/
def stickyEx : StickyOptions :=
  { duration := "", stickyOrigins := [], stickyMax := 0, stickiness := false }

/-- Sample cached application `app1` owned by `user1`, limits already
assembled from `FREETIER_V0` and `payPlanType` cleared. -/
def appEx : Application :=
  { id := "app1", userID := "user1", name := "app one", contactEmail := ""
    description := "", owner := "", url := "", status := "IN_SERVICE"
    payPlanType := "", firstDateSurpassed := 0, dummy := false
    gatewayAAT := aatEx, gatewaySettings := gsEx, notificationSettings := nsEx
    limits := limitsFromPlan planFree }

/-- Sample cached load balancer `lb1` owned by `user1`. -/
def lbEx : LoadBalancer :=
  { id := "lb1", userID := "user1", name := "lb one", requestTimeout := 5000
    gigastake := false, gigastakeRedirect := false, applicationIDs := []
    applications := [], stickyOptions := stickyEx }

/-- Sample cache: one application, one load balancer, two pay plans. -/
def cacheEx : Cache :=
  { applications := [("app1", appEx)]
    loadBalancers := [("lb1", lbEx)]
    payPlans := [("FREETIER_V0", planFree), ("TEST_PLAN_10K", planTest10K)] }

/-- Update request that only sets the name. -/
def nameOnlyUpdate : UpdateApplication :=
  { zeroUpdateApplication with name := "renamed" }

/-- The application after applying `nameOnlyUpdate` to `appEx`. -/
def appExRenamed : Application := { appEx with name := "renamed" }

/-- Update request whose pay-plan type is absent from the cache. -/
def unknownPlanUpdate : UpdateApplication :=
  { zeroUpdateApplication with payPlanType := "MISSING_PLAN" }

/-- Update request that sets a name and an unknown pay-plan type. -/
def renamingUnknownPlanUpdate : UpdateApplication :=
  { zeroUpdateApplication with name := "newname", payPlanType := "MISSING_PLAN" }

/-- Update request moving the application to `TEST_PLAN_10K`. -/
def planUpdate10K : UpdateApplication :=
  { zeroUpdateApplication with payPlanType := "TEST_PLAN_10K" }

/-- `appEx` after the move to `TEST_PLAN_10K`. -/
def appExUpgraded : Application := { appEx with limits := limitsFromPlan planTest10K }

/-- A store-returned application carrying a resolved pay-plan type. -/
def appExWithPlan : Application := { appEx with id := "app2", payPlanType := "FREETIER_V0" }

/-- A store-returned load balancer with two member IDs, one of which is
unknown to the cache. -/
def lbExWithIDs : LoadBalancer :=
  { lbEx with id := "lb2", applicationIDs := ["app1", "ghost"] }

/-- Sample bulk first-date-surpassed input. -/
def ufdsEx : UpdateFirstDateSurpassed :=
  { applicationIDs := ["app1"], firstDateSurpassed := 42 }

/-- Looking a key up after an in-place replacement: the replaced key yields
the new value exactly when it was present, other keys are untouched. -/
theorem lookupAssoc_setAssoc {β : Type} (l : List (String × β)) (id id' : String) (b : β) :
    lookupAssoc (setAssoc l id b) id' =
      if id' = id then Option.map (fun _ => b) (lookupAssoc l id)
      else lookupAssoc l id' := by
  induction l with
  | nil => by_cases h : id' = id <;> simp [lookupAssoc, setAssoc, h]
  | cons p t ih =>
    simp only [setAssoc, List.map_cons] at ih ⊢
    by_cases h' : id' = id
    · subst h'
      by_cases hp : p.1 = id'
      · simp [lookupAssoc, hp]
      · simp [lookupAssoc, hp, ih]
    · by_cases hp : p.1 = id
      · have hne : ¬ (id = id') := fun hc => h' hc.symm
        have hne2 : ¬ (p.1 = id') := fun hc => h' (hc.symm.trans hp)
        simp [lookupAssoc, hp, hne, hne2, h', ih]
      · by_cases hh : p.1 = id'
        · simp [lookupAssoc, hp, hh, h', ih]
        · simp [lookupAssoc, hp, hh, h', ih]

/-- Cache-level form of `lookupAssoc_setAssoc` for applications. -/
theorem getApplication_setApplication (c : Cache) (id id' : String) (a : Application) :
    (c.setApplication id a).getApplication id' =
      if id' = id then Option.map (fun _ => a) (c.getApplication id)
      else c.getApplication id' :=
  lookupAssoc_setAssoc c.applications id id' a

/-- Cache-level form of `lookupAssoc_setAssoc` for load balancers. -/
theorem getLoadBalancer_setLoadBalancer (c : Cache) (id id' : String) (lb : LoadBalancer) :
    (c.setLoadBalancer id lb).getLoadBalancer id' =
      if id' = id then Option.map (fun _ => lb) (c.getLoadBalancer id)
      else c.getLoadBalancer id' :=
  lookupAssoc_setAssoc c.loadBalancers id id' lb

/-- The head of the merge replaces exactly the name and status fields,
each if and only if the incoming string is non-empty. -/
theorem applyAppUpdateHead_eq (app : Application) (u : UpdateApplication) :
    applyAppUpdateHead app u =
      { app with
          name := if u.name = "" then app.name else u.name
          status := if u.status = "" then app.status else u.status } := by
  unfold applyAppUpdateHead
  by_cases h1 : u.name = "" <;> by_cases h2 : u.status = "" <;> simp [h1, h2]

/-- The tail of the merge replaces exactly the timestamp and the two nested
settings objects, the former if and only if the incoming timestamp is
non-zero, the latter wholesale whenever the incoming pointer is non-nil. -/
theorem applyAppUpdateTail_eq (app : Application) (u : UpdateApplication) :
    applyAppUpdateTail app u =
      { app with
          firstDateSurpassed :=
            if u.firstDateSurpassed = 0 then app.firstDateSurpassed else u.firstDateSurpassed
          gatewaySettings := u.gatewaySettings.getD app.gatewaySettings
          notificationSettings := u.notificationSettings.getD app.notificationSettings } := by
  unfold applyAppUpdateTail
  by_cases h1 : u.firstDateSurpassed = 0 <;>
    cases hg : u.gatewaySettings <;> cases hn : u.notificationSettings <;>
      simp [h1, hg, hn]

/-- The load balancer merge replaces exactly the name (iff non-empty) and
the stickiness options (wholesale, iff non-nil). -/
theorem applyLBUpdate_eq (lb : LoadBalancer) (u : UpdateLoadBalancer) :
    applyLBUpdate lb u =
      { lb with
          name := if u.name = "" then lb.name else u.name
          stickyOptions := u.stickyOptions.getD lb.stickyOptions } := by
  unfold applyLBUpdate
  by_cases h1 : u.name = "" <;> cases hs : u.stickyOptions <;> simp [h1, hs]

/-- C7: applying the all-zero-value no-op update (remove=false) to any
cached application leaves it unchanged, and applying it twice does too: the
entity after one and after two applications equals the entity before. -/
theorem c7_noop_update_idempotent (c : Cache) (app : Application) :
    applyAppUpdate c app zeroUpdateApplication = some app ∧
    (applyAppUpdate c app zeroUpdateApplication).bind
      (fun a => applyAppUpdate c a zeroUpdateApplication) = some app := by
  constructor <;> rfl

/-- C6: when the store write fails, the update handlers (field update or
remove, application or load balancer) leave the in-memory mirror identical
to its pre-request state and, when the entity exists, return the store
error. -/
theorem c6_store_error_leaves_cache_unchanged (c : Cache) (idA idL : String)
    (u : UpdateApplication) (v : UpdateLoadBalancer) :
    (Router.UpdateApplication c idA u .fail).cache = c ∧
    (Router.UpdateLoadBalancer c idL v .fail).cache = c ∧
    (∀ app, c.getApplication idA = some app →
      Router.UpdateApplication c idA u .fail = .storeError c) ∧
    (∀ lb, c.getLoadBalancer idL = some lb →
      Router.UpdateLoadBalancer c idL v .fail = .storeError c) := by
  refine ⟨?_, ?_, ?_, ?_⟩
  · unfold Router.UpdateApplication
    cases h : c.getApplication idA <;> rfl
  · unfold Router.UpdateLoadBalancer
    cases h : c.getLoadBalancer idL <;> rfl
  · intro app h
    unfold Router.UpdateApplication
    rw [h]
  · intro lb h
    unfold Router.UpdateLoadBalancer
    rw [h]

/-- Witness for C6 at a concrete cache, entity and update request. -/
theorem c6_store_error_leaves_cache_unchanged_witness :
    Router.UpdateApplication cacheEx "app1" zeroUpdateApplication .fail = .storeError cacheEx :=
  (c6_store_error_leaves_cache_unchanged cacheEx "app1" "lb1" zeroUpdateApplication
    zeroUpdateLoadBalancer).2.2.1 appEx (by rfl)

/-- C5: a remove-flagged update applies only the fixed soft-removal
transition — status becomes the terminal awaiting-grace-period value for an
application, the owning-user field becomes empty for a load balancer — with
every other field of the entity untouched (the result does not depend on
the other fields of the request), and the entity remains retrievable by ID
afterwards. -/
theorem c5_remove_is_soft_state_transition (c : Cache) (idA idL : String)
    (app : Application) (lb : LoadBalancer) (u : UpdateApplication) (v : UpdateLoadBalancer)
    (ha : c.getApplication idA = some app) (hu : u.remove = true)
    (hl : c.getLoadBalancer idL = some lb) (hv : v.remove = true) :
    Router.UpdateApplication c idA u .ok =
      .ok (c.setApplication idA { app with status := AwaitingGracePeriod })
          { app with status := AwaitingGracePeriod } ∧
    (Router.UpdateApplication c idA u .ok).cache.getApplication idA =
      some { app with status := AwaitingGracePeriod } ∧
    Router.UpdateLoadBalancer c idL v .ok =
      .ok (c.setLoadBalancer idL { lb with userID := "" }) { lb with userID := "" } ∧
    (Router.UpdateLoadBalancer c idL v .ok).cache.getLoadBalancer idL =
      some { lb with userID := "" } := by
  have h1 : Router.UpdateApplication c idA u .ok =
      .ok (c.setApplication idA { app with status := AwaitingGracePeriod })
          { app with status := AwaitingGracePeriod } := by
    unfold Router.UpdateApplication
    rw [ha]
    simp [hu]
  have h2 : Router.UpdateLoadBalancer c idL v .ok =
      .ok (c.setLoadBalancer idL { lb with userID := "" }) { lb with userID := "" } := by
    unfold Router.UpdateLoadBalancer
    rw [hl]
    simp [hv]
  refine ⟨h1, ?_, h2, ?_⟩
  · rw [h1]
    show (c.setApplication idA _).getApplication idA = _
    rw [getApplication_setApplication]
    simp [ha]
  · rw [h2]
    show (c.setLoadBalancer idL _).getLoadBalancer idL = _
    rw [getLoadBalancer_setLoadBalancer]
    simp [hl]

/-- Witness for C5 at a concrete cache, with remove-flagged requests that
also carry (ignored) field values. -/
theorem c5_remove_is_soft_state_transition_witness :
    Router.UpdateApplication cacheEx "app1"
        { nameOnlyUpdate with remove := true } .ok =
      .ok (cacheEx.setApplication "app1" { appEx with status := AwaitingGracePeriod })
          { appEx with status := AwaitingGracePeriod } :=
  (c5_remove_is_soft_state_transition cacheEx "app1" "lb1" appEx lbEx
    { nameOnlyUpdate with remove := true } { zeroUpdateLoadBalancer with remove := true }
    (by rfl) (by rfl) (by rfl) (by rfl)).1

/-- C10: the pay-plan handler looks up the upper-cased form of the path
parameter, so two parameters that agree after upper-casing resolve to the
same pay plan (or the same not-found result). -/
theorem c10_payplan_lookup_case_insensitive (c : Cache) (s s1 s2 : String)
    (h : s1.data.map Char.toUpper = s2.data.map Char.toUpper) :
    Router.GetPayPlan c s = c.getPayPlan (toUpperStr s) ∧
    Router.GetPayPlan c s1 = Router.GetPayPlan c s2 := by
  refine ⟨rfl, ?_⟩
  unfold Router.GetPayPlan toUpperStr
  rw [h]

/-- Witness for C10: lower- and upper-case spellings of `FREETIER_V0`
resolve identically on the sample cache. -/
theorem c10_payplan_lookup_case_insensitive_witness :
    Router.GetPayPlan cacheEx "freetier_v0" = Router.GetPayPlan cacheEx "FREETIER_V0" :=
  (c10_payplan_lookup_case_insensitive cacheEx "freetier_v0" "freetier_v0" "FREETIER_V0"
    (by decide)).2

/-- C2 (refuted as stated, code bug): an application update naming a pay
plan absent from the cache does not fail with an error value — the handler
dereferences the nil result of the pay-plan lookup and panics; and when the
request also carries other non-zero fields, those have already been merged
into the cached entity at the moment of the panic, so the mirror is not
left unchanged either. -/
theorem c2_unknown_plan_dereferences_nil :
    Router.UpdateApplication cacheEx "app1" unknownPlanUpdate .ok = .panicked cacheEx ∧
    Router.UpdateApplication cacheEx "app1" renamingUnknownPlanUpdate .ok =
      .panicked (cacheEx.setApplication "app1" { appEx with name := "newname" }) ∧
    (cacheEx.setApplication "app1" { appEx with name := "newname" }) ≠ cacheEx := by
  refine ⟨rfl, rfl, by decide⟩

/-- C3 counterexample: on a cache whose only application belongs to
`user1`, the list-by-user handler answers the not-found error — not an
empty sequence — for a user that owns nothing. -/
theorem c3_handler_returns_not_found_on_empty :
    Router.GetApplicationByUserID cacheEx "nonexistent-user" = .notFound ∧
    Router.GetLoadBalancerByUserID cacheEx "nonexistent-user" = .notFound := by
  exact ⟨rfl, rfl⟩

/-- C3 (amended): the cache-level list-by-user operation returns an empty
sequence (never an error) for a user that owns nothing, but the HTTP
handlers map that empty result to a not-found error response. -/
theorem c3_by_user_empty_cache_level (c : Cache) (uid : String)
    (ha : ∀ a ∈ c.applications.map Prod.snd, a.userID ≠ uid)
    (hl : ∀ l ∈ c.loadBalancers.map Prod.snd, l.userID ≠ uid) :
    c.getApplicationsByUserID uid = [] ∧
    c.getLoadBalancersByUserID uid = [] ∧
    Router.GetApplicationByUserID c uid = .notFound ∧
    Router.GetLoadBalancerByUserID c uid = .notFound := by
  have h1 : c.getApplicationsByUserID uid = [] := by
    unfold Cache.getApplicationsByUserID
    rw [List.filter_eq_nil_iff]
    intro a hmem
    simpa using ha a hmem
  have h2 : c.getLoadBalancersByUserID uid = [] := by
    unfold Cache.getLoadBalancersByUserID
    rw [List.filter_eq_nil_iff]
    intro l hmem
    simpa using hl l hmem
  refine ⟨h1, h2, ?_, ?_⟩
  · unfold Router.GetApplicationByUserID
    rw [h1]
    rfl
  · unfold Router.GetLoadBalancerByUserID
    rw [h2]
    rfl

/-- Witness for the amended C3 at a concrete cache and user. -/
theorem c3_by_user_empty_cache_level_witness :
    cacheEx.getApplicationsByUserID "nonexistent-user" = [] ∧
    Router.GetApplicationByUserID cacheEx "nonexistent-user" = .notFound :=
  ⟨(c3_by_user_empty_cache_level cacheEx "nonexistent-user" (by decide) (by decide)).1,
   (c3_by_user_empty_cache_level cacheEx "nonexistent-user" (by decide) (by decide)).2.2.1⟩

/-- C8: the load balancer creation step resolves each member application ID
against the cache's application index, in the order of the ID list, to
populate the materialized applications list, and clears the raw ID list on
the returned object. -/
theorem c8_create_lb_resolves_members (c : Cache) (lb : LoadBalancer)
    (h : lb.applications = []) :
    (Router.CreateLoadBalancer c lb).applications =
      lb.applicationIDs.map c.getApplication ∧
    (Router.CreateLoadBalancer c lb).applicationIDs = [] ∧
    (Router.CreateLoadBalancer c lb).applications.length = lb.applicationIDs.length := by
  unfold Router.CreateLoadBalancer
  simp [h]

/-- Witness for C8 on the sample cache, with one resolvable and one unknown
member ID. -/
theorem c8_create_lb_resolves_members_witness :
    (Router.CreateLoadBalancer cacheEx lbExWithIDs).applications =
      lbExWithIDs.applicationIDs.map cacheEx.getApplication ∧
    (Router.CreateLoadBalancer cacheEx lbExWithIDs).applicationIDs = [] ∧
    (Router.CreateLoadBalancer cacheEx lbExWithIDs).applications.length =
      lbExWithIDs.applicationIDs.length :=
  c8_create_lb_resolves_members cacheEx lbExWithIDs (by rfl)

/-- C1: the zero-value-sentinel merge replaces each updatable field of the
cached application exactly when the incoming value is non-zero (a non-empty
pay-plan type updating the derived limits), replaces the nested settings
objects wholesale exactly when the incoming pointer is non-nil, leaves
every field whose incoming value is zero identical to its pre-update value,
and never touches the non-updatable fields; likewise for the load balancer
merge with its name and stickiness options. -/
theorem c1_zero_value_sentinel_merge (c : Cache) (app app' : Application)
    (u : UpdateApplication) (lb : LoadBalancer) (v : UpdateLoadBalancer)
    (h : applyAppUpdate c app u = some app') :
    (app'.name = if u.name = "" then app.name else u.name) ∧
    (app'.status = if u.status = "" then app.status else u.status) ∧
    (app'.firstDateSurpassed =
      if u.firstDateSurpassed = 0 then app.firstDateSurpassed else u.firstDateSurpassed) ∧
    (app'.gatewaySettings = u.gatewaySettings.getD app.gatewaySettings) ∧
    (app'.notificationSettings = u.notificationSettings.getD app.notificationSettings) ∧
    (u.payPlanType = "" → app'.limits = app.limits) ∧
    (∀ p, c.getPayPlan u.payPlanType = some p → u.payPlanType ≠ "" →
      app'.limits = limitsFromPlan p) ∧
    app'.id = app.id ∧ app'.userID = app.userID ∧ app'.contactEmail = app.contactEmail ∧
    app'.description = app.description ∧ app'.owner = app.owner ∧ app'.url = app.url ∧
    app'.dummy = app.dummy ∧ app'.gatewayAAT = app.gatewayAAT ∧
    app'.payPlanType = app.payPlanType ∧
    ((applyLBUpdate lb v).name = if v.name = "" then lb.name else v.name) ∧
    ((applyLBUpdate lb v).stickyOptions = v.stickyOptions.getD lb.stickyOptions) ∧
    (applyLBUpdate lb v).id = lb.id ∧ (applyLBUpdate lb v).userID = lb.userID ∧
    (applyLBUpdate lb v).requestTimeout = lb.requestTimeout ∧
    (applyLBUpdate lb v).gigastake = lb.gigastake ∧
    (applyLBUpdate lb v).gigastakeRedirect = lb.gigastakeRedirect ∧
    (applyLBUpdate lb v).applicationIDs = lb.applicationIDs ∧
    (applyLBUpdate lb v).applications = lb.applications := by
  unfold applyAppUpdate at h
  by_cases hp : u.payPlanType = ""
  · rw [if_neg (by simp [hp])] at h
    have h2 := (Option.some.inj h).symm
    subst h2
    simp [applyAppUpdateTail_eq, applyAppUpdateHead_eq, applyLBUpdate_eq, hp]
  · rw [if_pos (by simp [hp])] at h
    cases hq : c.getPayPlan u.payPlanType with
    | none => rw [hq] at h; cases h
    | some p =>
      rw [hq] at h
      have h2 := (Option.some.inj h).symm
      subst h2
      simp [applyAppUpdateTail_eq, applyAppUpdateHead_eq, applyLBUpdate_eq, hp, hq]

/-- Witness for C1: a request setting only the name changes exactly the
name of the concrete cached application. -/
theorem c1_zero_value_sentinel_merge_witness :
    applyAppUpdate cacheEx appEx nameOnlyUpdate = some appExRenamed ∧
    appExRenamed.name =
      (if nameOnlyUpdate.name = "" then appEx.name else nameOnlyUpdate.name) :=
  ⟨by decide,
   (c1_zero_value_sentinel_merge cacheEx appEx appExRenamed nameOnlyUpdate
      lbEx zeroUpdateLoadBalancer (by decide)).1⟩

/-- C4: creation with a pay-plan type known to the cache assembles the
returned object's limits from that plan (plan type and daily limit) and
clears the pay-plan field; an update changing the pay-plan type to a known
plan sets the cached limits to exactly that plan's values, and the object
returned to the caller keeps its empty pay-plan field. -/
theorem c4_known_plan_assembles_limits (c : Cache) (fullApp app app' : Application)
    (u : UpdateApplication) (p q : PayPlan)
    (h1 : fullApp.payPlanType ≠ "") (h2 : c.getPayPlan fullApp.payPlanType = some p)
    (h3 : u.payPlanType ≠ "") (h4 : c.getPayPlan u.payPlanType = some q)
    (h5 : app.payPlanType = "") (h6 : applyAppUpdate c app u = some app') :
    (∃ r, Router.CreateApplication c fullApp = some r ∧
       r.limits.dailyLimit = p.dailyLimit ∧ r.limits.planType = p.planType ∧
       r.payPlanType = "") ∧
    app'.limits.dailyLimit = q.dailyLimit ∧ app'.limits.planType = q.planType ∧
    app'.payPlanType = "" := by
  constructor
  · refine ⟨{ fullApp with limits := limitsFromPlan p, payPlanType := "" }, ?_, rfl, rfl, rfl⟩
    unfold Router.CreateApplication
    rw [if_pos h1, h2]
  · unfold applyAppUpdate at h6
    rw [if_pos h3, h4] at h6
    have h7 := (Option.some.inj h6).symm
    subst h7
    simp [applyAppUpdateTail_eq, applyAppUpdateHead_eq, h5, limitsFromPlan]

/-- Witness for C4 on the sample cache: creation resolving `FREETIER_V0`
and an update moving `app1` to `TEST_PLAN_10K`. -/
theorem c4_known_plan_assembles_limits_witness :
    (∃ r, Router.CreateApplication cacheEx appExWithPlan = some r ∧
       r.limits.dailyLimit = planFree.dailyLimit ∧ r.limits.planType = planFree.planType ∧
       r.payPlanType = "") ∧
    appExUpgraded.limits.dailyLimit = planTest10K.dailyLimit ∧
    appExUpgraded.limits.planType = planTest10K.planType ∧
    appExUpgraded.payPlanType = "" :=
  c4_known_plan_assembles_limits cacheEx appExWithPlan appEx appExUpgraded planUpdate10K
    planFree planTest10K (by decide) (by decide) (by decide) (by decide) (by decide) (by decide)

/-- When the collection loop finds no missing ID, every listed ID is
present in the cache. -/
theorem firstMissingApp_none (c : Cache) (ids : List String)
    (h : firstMissingApp c ids = none) :
    ∀ i ∈ ids, (c.getApplication i).isSome := by
  induction ids with
  | nil => intro i hi; cases hi
  | cons j rest ih =>
    intro i hi
    unfold firstMissingApp at h
    cases hj : c.getApplication j with
    | none => rw [hj] at h; cases h
    | some a =>
      rw [hj] at h
      rcases List.mem_cons.mp hi with rfl | hi'
      · simp [hj]
      · exact ih h i hi'

/-- Lookup after one in-place first-date assignment: only the assigned ID
is affected, and only its timestamp field. -/
theorem getApplication_setFDSStep (d : Nat) (c : Cache) (i j : String) :
    (setFDSStep d c i).getApplication j =
      if j = i then
        Option.map (fun a => { a with firstDateSurpassed := d }) (c.getApplication j)
      else c.getApplication j := by
  unfold setFDSStep
  cases hx : c.getApplication i with
  | none =>
    by_cases hj : j = i
    · subst hj; simp [hx]
    · simp [hj]
  | some a =>
    rw [getApplication_setApplication]
    by_cases hj : j = i
    · subst hj; simp [hx]
    · simp [hj]

/-- A first-date value already held by a cached application survives the
rest of the assignment loop. -/
theorem setFDS_preserves (d : Nat) (ids : List String) (c : Cache) (j : String)
    (h : Option.map Application.firstDateSurpassed (c.getApplication j) = some d) :
    Option.map Application.firstDateSurpassed ((setFDS d ids c).getApplication j) = some d := by
  induction ids generalizing c with
  | nil => exact h
  | cons i rest ih =>
    show Option.map _ ((setFDS d rest (setFDSStep d c i)).getApplication j) = some d
    apply ih
    rw [getApplication_setFDSStep]
    by_cases hj : j = i
    · rw [if_pos hj]
      cases hx : c.getApplication j with
      | none => rw [hx] at h; cases h
      | some a => simp
    · rw [if_neg hj]; exact h

/-- After the assignment loop, every listed application (all present in the
cache) holds the input first-date value. -/
theorem setFDS_sets (d : Nat) (ids : List String) (c : Cache)
    (hall : ∀ i ∈ ids, (c.getApplication i).isSome) :
    ∀ j ∈ ids, Option.map Application.firstDateSurpassed
      ((setFDS d ids c).getApplication j) = some d := by
  induction ids generalizing c with
  | nil => intro j hj; cases hj
  | cons i rest ih =>
    intro j hj
    show Option.map _ ((setFDS d rest (setFDSStep d c i)).getApplication j) = some d
    have hstep : ∀ i' ∈ rest, ((setFDSStep d c i).getApplication i').isSome := by
      intro i' hi'
      rw [getApplication_setFDSStep]
      by_cases h' : i' = i
      · rw [if_pos h']
        obtain ⟨a, ha⟩ := Option.isSome_iff_exists.mp
          (hall i' (List.mem_cons_of_mem _ hi'))
        simp [ha]
      · rw [if_neg h']
        exact hall i' (List.mem_cons_of_mem _ hi')
    rcases List.mem_cons.mp hj with rfl | hj'
    · apply setFDS_preserves
      rw [getApplication_setFDSStep, if_pos rfl]
      obtain ⟨a, ha⟩ := Option.isSome_iff_exists.mp (hall j (List.mem_cons_self _ _))
      simp [ha]
    · exact ih (setFDSStep d c i) hstep j hj'

/-- C9: the bulk first-date-surpassed update is all-or-nothing over the
cache: an empty ID list is rejected before the store write, an ID absent
from the cache or a failed store write leaves the mirror untouched, and on
success every listed application's timestamp equals the input value. -/
theorem c9_bulk_first_date_all_or_nothing (c : Cache) (u : UpdateFirstDateSurpassed)
    (w : StoreResult) :
    (u.applicationIDs = [] →
      Router.UpdateFirstDateSurpassed c u w = .badRequest c ∧
      ufdsStoreWritten c u = false) ∧
    (∀ m, firstMissingApp c u.applicationIDs = some m →
      Router.UpdateFirstDateSurpassed c u w = .notFound c m ∧
      ufdsStoreWritten c u = false) ∧
    (w = .fail → (Router.UpdateFirstDateSurpassed c u w).cache = c) ∧
    (w = .ok → u.applicationIDs ≠ [] → firstMissingApp c u.applicationIDs = none →
      ∃ c2 apps, Router.UpdateFirstDateSurpassed c u w = .ok c2 apps ∧
        ∀ id ∈ u.applicationIDs,
          Option.map Application.firstDateSurpassed (c2.getApplication id) =
            some u.firstDateSurpassed) := by
  refine ⟨?_, ?_, ?_, ?_⟩
  · intro h
    unfold Router.UpdateFirstDateSurpassed ufdsStoreWritten
    simp [h]
  · intro m hm
    have hne : u.applicationIDs ≠ [] := by
      intro h0
      rw [h0] at hm
      cases hm
    unfold Router.UpdateFirstDateSurpassed ufdsStoreWritten
    rw [if_neg hne, hm]
    exact ⟨rfl, by simp⟩
  · intro hw
    subst hw
    unfold Router.UpdateFirstDateSurpassed
    by_cases h0 : u.applicationIDs = []
    · simp [h0, UFDSOutcome.cache]
    · rw [if_neg h0]
      cases hm : firstMissingApp c u.applicationIDs <;> simp [UFDSOutcome.cache]
  · intro hw hne hnone
    subst hw
    have hres : Router.UpdateFirstDateSurpassed c u .ok =
        .ok (setFDS u.firstDateSurpassed u.applicationIDs c)
          (u.applicationIDs.filterMap
            (setFDS u.firstDateSurpassed u.applicationIDs c).getApplication) := by
      unfold Router.UpdateFirstDateSurpassed
      rw [if_neg hne, hnone]
    exact ⟨_, _, hres, setFDS_sets u.firstDateSurpassed u.applicationIDs c
      (firstMissingApp_none c u.applicationIDs hnone)⟩

/-- Witness for C9: the successful branch on the sample cache with one
listed application. -/
theorem c9_bulk_first_date_all_or_nothing_witness :
    ∃ c2 apps, Router.UpdateFirstDateSurpassed cacheEx ufdsEx .ok = .ok c2 apps ∧
      ∀ id ∈ ufdsEx.applicationIDs,
        Option.map Application.firstDateSurpassed (c2.getApplication id) =
          some ufdsEx.firstDateSurpassed :=
  (c9_bulk_first_date_all_or_nothing cacheEx ufdsEx .ok).2.2.2 rfl (by decide) (by decide)

end PocketHTTPDB
